import Mathlib

/-!
Verification of the client-registry / tunnel-lifecycle core of the rport
server (package `chserver`, file `server/routes/routes.go` in this excerpt).

The `ClientService` methods (`StartClient`, `startClientTunnels`,
`checkLocalPort`, `Terminate`, `ForceDelete`, `isClientAuthIDInUse`,
`PopulateGroupsWithUserClients`) are translated directly from the Go source.
Collaborators that live in packages outside the excerpt (the in-memory
client repository, the port distributor, the `Client` entity behaviors,
tunnel ACL parsing) are modelled from the specification; each such
definition carries a doc comment starting with `Modelled from the spec:`.

Go's in-place mutation is rendered as explicit state passing: the service
state (repository contents, retention setting, port-distributor state) is
threaded through every operation, and operations that mutate the
caller-supplied `Client` value (as `Terminate` and `startClientTunnels` do
through Go pointers) return the updated value.
-/

namespace RportVerify

/-- Go `strconv.Atoi`: an optional sign followed by at least one decimal
digit, rejecting anything else and values outside the 64-bit int range. -/
def atoi (s : String) : Option Int :=
  let cs := s.data
  let signDigits : Int × List Char :=
    match cs with
    | '+' :: rest => (1, rest)
    | '-' :: rest => (-1, rest)
    | _ => (1, cs)
  let sign := signDigits.1
  let digits := signDigits.2
  if digits.isEmpty then none
  else if digits.all Char.isDigit then
    let n : Nat := digits.foldl (fun a c => a * 10 + (c.toNat - 48)) 0
    let v : Int := sign * (n : Int)
    if v < -(2 ^ 63) ∨ 2 ^ 63 - 1 < v then none else some v
  else none

/-- One requested remote (Go `chshare.Remote`): target host/port on the
agent side, requested local host/port, random-port flag, optional ACL
string. -/
structure Remote where
  RemoteHost : String
  RemotePort : String
  LocalHost : String
  LocalPort : String
  LocalPortRandom : Bool
  ACL : Option String
deriving DecidableEq, Repr

/-- Modelled from the spec: a remote has an explicitly specified local
spec when the caller supplied a local port (spec 4.6: "If no explicit
local port was specified, request a random port"). -/
def Remote.IsLocalSpecified (r : Remote) : Bool :=
  r.LocalPort ≠ ""

/-- Modelled from the spec: a Tunnel ACL is "a parsed set of allow/deny
network rules ... derived once from a configuration string at
tunnel-creation time" (spec, Data Model). The rule entries are kept as an
opaque list of strings. -/
structure TunnelACL where
  rules : List String
deriving DecidableEq, Repr

/-- Modelled from the spec: `ParseTunnelACL` parses the per-tunnel ACL
configuration string, failing on a malformed string (spec 4.6 step 2 and
section 7: "ACL parse failure"). The format is modelled as a comma-separated
list of nonempty rule entries. -/
def ParseTunnelACL (s : String) : Except String TunnelACL :=
  let entries := s.splitOn ","
  if entries.any (fun e => e = "") then .error s
  else .ok ⟨entries⟩

/-- One active port-forward owned by a client: the resolved remote
specification plus the optional parsed ACL (spec, Data Model: Tunnel). -/
structure Tunnel where
  remote : Remote
  acl : Option TunnelACL
deriving DecidableEq, Repr

/-- Modelled from the spec: the live-connection handle is "an opaque
capability supporting get remote address and close" (spec section 1).
`closeResult` records the outcome the transport layer reports when the
handle is closed: `none` for success, `some msg` for a failing close. -/
structure ConnHandle where
  remoteAddr : String
  closeResult : Option String
deriving DecidableEq, Repr

/-- An opaque update-status blob carried on the client (Go
`models.UpdatesStatus`); its contents are irrelevant to this core. -/
structure UpdatesStatusBlob where
  blob : String
deriving DecidableEq, Repr

/-- The Client entity (Go `clients.Client`): identity and live state of one
registered agent, with the fields the `chserver` code reads or writes. The
Go `Connection`/`Context`/`Logger` capabilities are rendered as the
optional connection handle (present iff connected). -/
structure Client where
  ID : String
  Name : String
  OS : String
  OSArch : String
  OSFamily : String
  OSKernel : String
  OSFullName : String
  OSVersion : String
  OSVirtualizationSystem : String
  OSVirtualizationRole : String
  Hostname : String
  CPUFamily : String
  CPUModel : String
  CPUModelName : String
  CPUVendor : String
  NumCPUs : Nat
  MemoryTotal : Nat
  Timezone : String
  IPv4 : List String
  IPv6 : List String
  Tags : List String
  Version : String
  Address : String
  Tunnels : List Tunnel
  DisconnectedAt : Option Nat
  ClientAuthID : String
  AllowedUserGroups : List String
  UpdatesStatus : Option UpdatesStatusBlob
  Connection : Option ConnHandle
deriving DecidableEq, Repr

/-- Modelled from the spec: `Client.Close` "terminates the live connection
handle; idempotent" (spec 4.3). It reports the transport layer's close
outcome; closing an absent handle succeeds. -/
def Client.closeConn (c : Client) : Option String :=
  match c.Connection with
  | none => none
  | some h => h.closeResult

/-- The agent's connection request (Go `chshare.ConnectionRequest`): the
fields copied into the new Client plus the requested remotes. -/
structure ConnectionRequest where
  Name : String
  OS : String
  OSArch : String
  OSFamily : String
  OSKernel : String
  OSFullName : String
  OSVersion : String
  OSVirtualizationSystem : String
  OSVirtualizationRole : String
  Hostname : String
  CPUFamily : String
  CPUModel : String
  CPUModelName : String
  CPUVendor : String
  NumCPUs : Nat
  MemoryTotal : Nat
  Timezone : String
  IPv4 : List String
  IPv6 : List String
  Tags : List String
  Version : String
  Remotes : List Remote
deriving DecidableEq, Repr

/-- The port distributor's state (spec 4.1): the configured allowed-port
set and the last-refreshed busy subset. -/
structure PortDistributor where
  allowed : List Int
  busy : List Int
deriving DecidableEq, Repr

/-- `IsPortAllowed(port)` — "pure predicate against the configured
allow-list/range" (spec 4.1). Modelled from the spec. -/
def PortDistributor.IsPortAllowed (pd : PortDistributor) (port : Int) : Bool :=
  pd.allowed.contains port

/-- `IsPortBusy(port)` — "pure predicate against the last-refreshed busy
set" (spec 4.1). Modelled from the spec. -/
def PortDistributor.IsPortBusy (pd : PortDistributor) (port : Int) : Bool :=
  pd.busy.contains port

/-- The local ports of all tunnels of all currently connected clients. -/
def activeLocalPorts (repo : List Client) : List Int :=
  (repo.filter (fun c => decide (c.DisconnectedAt = none))).foldr
    (fun c acc => c.Tunnels.filterMap (fun t => atoi t.remote.LocalPort) ++ acc) []

/-- Modelled from the spec: `Refresh()` "recomputes the busy-port set from
all currently live tunnels" (spec 4.1). Collaborator I/O failures are not
modelled; the recomputation itself is total. -/
def PortDistributor.refreshFrom (pd : PortDistributor) (repo : List Client) :
    PortDistributor :=
  { pd with busy := activeLocalPorts repo }

/-- Modelled from the spec: `GetRandomPort()` "returns one currently-free
port from the allowed set ... fails with a capacity error when no allowed
port is free" (spec 4.1). The random choice is modelled as the first free
candidate; the returned port is recorded busy so that one allocation round
never hands out the same port twice. -/
def PortDistributor.getRandomPort (pd : PortDistributor) :
    Option (Int × PortDistributor) :=
  match pd.allowed.filter (fun p => !(pd.busy.contains p)) with
  | [] => none
  | p :: _ => some (p, { pd with busy := p :: pd.busy })

/-- Modelled from the spec: repository `GetByID` lookup (spec 4.2), over the
concurrency-safe store "keyed by client id". -/
def repoGetByID (repo : List Client) (id : String) : Option Client :=
  repo.find? (fun c => c.ID = id)

/-- Modelled from the spec: repository `Save(client)` — "insert-or-replace
by client id" (spec 4.2). -/
def repoSave (repo : List Client) (client : Client) : List Client :=
  if repo.any (fun c => c.ID = client.ID) then
    repo.map (fun c => if c.ID = client.ID then client else c)
  else
    repo ++ [client]

/-- Modelled from the spec: repository `Delete(client)` — "removes the
record unconditionally" (spec 4.2). -/
def repoDelete (repo : List Client) (client : Client) : List Client :=
  repo.filter (fun c => c.ID ≠ client.ID)

/-- Modelled from the spec: repository `GetAllByClientAuthID` — the
"secondary lookup by auth id" (spec section 2 component 4, 4.2). -/
def GetAllByClientAuthID (repo : List Client) (clientAuthID : String) :
    List Client :=
  repo.filter (fun c => c.ClientAuthID = clientAuthID)

/-- The whole service-visible state: repository contents, the retention
setting (`KeepLostClients`, nil = delete disconnected clients immediately),
the port distributor, and an injected repository I/O failure for
`GetUserClients` (spec section 7 allows "Repository I/O failure" from this
collaborator; `none` = the lookup succeeds). -/
structure ServiceState where
  repo : List Client
  KeepLostClients : Option Nat
  portDistributor : PortDistributor
  userClientsErr : Option String
deriving DecidableEq, Repr

/-- The structured errors the translated service operations produce. Errors
built in Go with `errors.APIError` carry an HTTP status (see
`SvcErr.httpStatus`); the others correspond to plain `fmt.Errorf` values. -/
inductive SvcErr where
  | getClientFailed (id : String)
  | clientIdInUse (id : String)
  | authIdInUse (authID : String)
  | splitHostFailed (addr : String)
  | noFreePorts
  | invalidLocalPort (port : String)
  | portNotAllowed (port : Int)
  | portBusy (port : Int)
  | aclParseFailed (acl : String)
  | tunnelCreateConflict (msg : String)
  | closeFailed (msg : String)
deriving DecidableEq, Repr

/-- The HTTP status the Go code attaches through `errors.APIError`:
`http.StatusBadRequest` (400) for an invalid or disallowed local port,
`http.StatusConflict` (409) for a busy port or a tunnel-creation conflict
(routes.go `checkLocalPort`, `startClientTunnels`). Errors built with plain
`fmt.Errorf` carry no status (`none`). -/
def SvcErr.httpStatus : SvcErr → Option Nat
  | .invalidLocalPort _ => some 400
  | .portNotAllowed _ => some 400
  | .portBusy _ => some 409
  | .tunnelCreateConflict _ => some 409
  | _ => none

/-- `ClientService.checkLocalPort` (routes.go): the explicit local port
must parse as an integer (else 400), be among the allowed ports (else 400)
and not be busy (else 409). -/
def checkLocalPort (pd : PortDistributor) (port : String) : Option SvcErr :=
  match atoi port with
  | none => some (.invalidLocalPort port)
  | some localPort =>
    if !(pd.IsPortAllowed localPort) then some (.portNotAllowed localPort)
    else if pd.IsPortBusy localPort then some (.portBusy localPort)
    else none

/-- Modelled from the spec: `Client.StartTunnel` "validates the remote spec
against already-held tunnels and the resolved local port, constructs and
appends a new Tunnel, returns it or fails with a structured error (e.g.,
conflicting local port)" (spec 4.3). -/
def Client.StartTunnel (c : Client) (remote : Remote) (acl : Option TunnelACL) :
    Except String (Tunnel × Client) :=
  if c.Tunnels.any (fun t => t.remote.LocalPort = remote.LocalPort) then
    .error ("tunnel with local port " ++ remote.LocalPort ++ " already exists")
  else
    let t : Tunnel := { remote := remote, acl := acl }
    .ok (t, { c with Tunnels := c.Tunnels ++ [t] })

/-- The per-remote loop body of `ClientService.startClientTunnels`
(routes.go): resolve the local port (random from the distributor when none
was specified, validated through `checkLocalPort` otherwise), parse the
optional ACL string, then call the client's `StartTunnel`, wrapping its
failure as a 409 conflict. Processing is fail-fast, in request order; the
distributor state reached so far is returned alongside the outcome. -/
def tunnelLoop (pd : PortDistributor) (client : Client) :
    List Remote → Except SvcErr (List Tunnel × Client) × PortDistributor
  | [] => (.ok ([], client), pd)
  | remote :: rest =>
    let resolved : Except SvcErr (Remote × PortDistributor) :=
      if !remote.IsLocalSpecified then
        match pd.getRandomPort with
        | none => .error .noFreePorts
        | some (port, pd1) =>
          .ok ({ remote with
                  LocalPort := toString port
                  LocalHost := "0.0.0.0"
                  LocalPortRandom := true }, pd1)
      else
        match checkLocalPort pd remote.LocalPort with
        | some e => .error e
        | none => .ok (remote, pd)
    match resolved with
    | .error e => (.error e, pd)
    | .ok (remote1, pd1) =>
      let aclParsed : Except SvcErr (Option TunnelACL) :=
        match remote1.ACL with
        | none => .ok none
        | some aclStr =>
          match ParseTunnelACL aclStr with
          | .error _ => .error (.aclParseFailed aclStr)
          | .ok acl => .ok (some acl)
      match aclParsed with
      | .error e => (.error e, pd1)
      | .ok acl =>
        match client.StartTunnel remote1 acl with
        | .error msg => (.error (.tunnelCreateConflict msg), pd1)
        | .ok (t, client1) =>
          match tunnelLoop pd1 client1 rest with
          | (.error e, pd2) => (.error e, pd2)
          | (.ok (ts, client2), pd2) => (.ok (t :: ts, client2), pd2)

/-- `ClientService.startClientTunnels` (routes.go): refresh the port
distributor, then allocate one tunnel per requested remote in request
order, fail-fast. Returns the created tunnels and the updated client, plus
the distributor state. -/
def startClientTunnels (st : ServiceState) (client : Client)
    (remotes : List Remote) :
    Except SvcErr (List Tunnel × Client) × PortDistributor :=
  let pd := st.portDistributor.refreshFrom st.repo
  tunnelLoop pd client remotes

/-- `ClientService.isClientAuthIDInUse` (routes.go): "returns true when the
client with different id exists for the client auth". -/
def isClientAuthIDInUse (repo : List Client) (clientAuthID clientID : String) :
    Bool :=
  (GetAllByClientAuthID repo clientAuthID).any (fun c => c.ID ≠ clientID)

/-- Modelled from the spec: the host component of `net.SplitHostPort`
applied to the connection's remote address — "resolve the agent's network
address into a host component (fails with a structured error if
unparseable)" (spec 4.5 step 4). Modelled as the text before the last
colon, failing when the address has no colon. -/
def splitHost (addr : String) : Option String :=
  let cs := addr.data
  if cs.contains ':' then
    some (String.mk (cs.take (cs.length - 1 - (cs.reverse).indexOf ':')))
  else
    none

/-- Modelled from the spec: `getRemotes` projects a tunnel list back to its
remote specifications (used by `StartClient` to compare the old client's
tunnels with the newly requested remotes). -/
def getRemotes (tunnels : List Tunnel) : List Remote :=
  tunnels.map (fun t => t.remote)

/-- Modelled from the spec: `GetTunnelsToReestablish(old, new)` computes
the old remotes whose tunnels existed before the disconnect and are not
duplicated by the new request ("same target/local spec", spec 4.5 step 2),
so they can be merged into the request's remote list and re-established. -/
def GetTunnelsToReestablish (old new : List Remote) : List Remote :=
  old.filter (fun o =>
    !(new.any (fun n =>
      n.RemoteHost = o.RemoteHost ∧ n.RemotePort = o.RemotePort ∧
      n.LocalHost = o.LocalHost ∧ n.LocalPort = o.LocalPort)))

/-- The Client literal built by `ClientService.StartClient` (routes.go):
every descriptor field copied from the request, `Tunnels` empty,
`DisconnectedAt` nil, the connection attached, and — when an old
disconnected record existed — its `UpdatesStatus` carried over. -/
def mkClient (clientAuthID clientID clientHost : String) (sshConn : ConnHandle)
    (req : ConnectionRequest) (oldClient : Option Client) : Client :=
  { ID := clientID
    Name := req.Name
    OS := req.OS
    OSArch := req.OSArch
    OSFamily := req.OSFamily
    OSKernel := req.OSKernel
    OSFullName := req.OSFullName
    OSVersion := req.OSVersion
    OSVirtualizationSystem := req.OSVirtualizationSystem
    OSVirtualizationRole := req.OSVirtualizationRole
    Hostname := req.Hostname
    CPUFamily := req.CPUFamily
    CPUModel := req.CPUModel
    CPUModelName := req.CPUModelName
    CPUVendor := req.CPUVendor
    NumCPUs := req.NumCPUs
    MemoryTotal := req.MemoryTotal
    Timezone := req.Timezone
    IPv4 := req.IPv4
    IPv6 := req.IPv6
    Tags := req.Tags
    Version := req.Version
    Address := clientHost
    Tunnels := []
    DisconnectedAt := none
    ClientAuthID := clientAuthID
    AllowedUserGroups := []
    UpdatesStatus := match oldClient with
      | some old => old.UpdatesStatus
      | none => none
    Connection := some sshConn }

/-- The tail of `ClientService.StartClient` after the old-record step
(routes.go): the auth-id uniqueness check, address resolution, Client
construction, tunnel allocation, and `Save`. `req` already holds the
merged remote list. -/
def startClientRest (st : ServiceState) (clientAuthID clientID : String)
    (sshConn : ConnHandle) (authMultiuseCreds : Bool)
    (req : ConnectionRequest) (oldClient : Option Client) :
    Except SvcErr Client × ServiceState :=
  if !authMultiuseCreds && isClientAuthIDInUse st.repo clientAuthID clientID then
    (.error (.authIdInUse clientAuthID), st)
  else
    match splitHost sshConn.remoteAddr with
    | none => (.error (.splitHostFailed sshConn.remoteAddr), st)
    | some clientHost =>
      match startClientTunnels st
          (mkClient clientAuthID clientID clientHost sshConn req oldClient)
          req.Remotes with
      | (.error e, pd1) => (.error e, { st with portDistributor := pd1 })
      | (.ok (_, client1), pd1) =>
        (.ok client1,
         { st with repo := repoSave st.repo client1, portDistributor := pd1 })

/-- `ClientService.StartClient` (routes.go): deny when the client id is
attached to a still-connected record; on a disconnected old record, merge
the old tunnels to re-establish into the request's remotes; then run the
auth check, address resolution, tunnel allocation and `Save`. -/
def StartClient (st : ServiceState) (clientAuthID clientID : String)
    (sshConn : ConnHandle) (authMultiuseCreds : Bool)
    (req : ConnectionRequest) : Except SvcErr Client × ServiceState :=
  match repoGetByID st.repo clientID with
  | some oldClient =>
    if oldClient.DisconnectedAt = none then
      (.error (.clientIdInUse clientID), st)
    else
      let oldTunnels := GetTunnelsToReestablish (getRemotes oldClient.Tunnels) req.Remotes
      startClientRest st clientAuthID clientID sshConn authMultiuseCreds
        { req with Remotes := req.Remotes ++ oldTunnels } (some oldClient)
  | none =>
    startClientRest st clientAuthID clientID sshConn authMultiuseCreds req none

/-- `ClientService.Terminate` (routes.go): with no retention setting,
delete immediately; otherwise stamp `DisconnectedAt := now` on the
caller's client, and save it back only when a record for its id is still
present ("Do not save if client doesn't exist in repo - it was force
deleted"). Returns the outcome, the (possibly mutated) caller-supplied
client, and the new state. -/
def Terminate (st : ServiceState) (client : Client) (now : Nat) :
    Except SvcErr Unit × Client × ServiceState :=
  if st.KeepLostClients = none then
    (.ok (), client, { st with repo := repoDelete st.repo client })
  else
    let client1 := { client with DisconnectedAt := some now }
    match repoGetByID st.repo client1.ID with
    | none => (.ok (), client1, st)
    | some _ => (.ok (), client1, { st with repo := repoSave st.repo client1 })

/-- `ClientService.ForceDelete` (routes.go): when the client is still
connected (`DisconnectedAt == nil`), close the live connection first and
abort on a close failure; then delete the record regardless of the
retention setting. -/
def ForceDelete (st : ServiceState) (client : Client) :
    Except SvcErr Unit × ServiceState :=
  if client.DisconnectedAt = none then
    match client.closeConn with
    | some msg => (.error (.closeFailed msg), st)
    | none => (.ok (), { st with repo := repoDelete st.repo client })
  else
    (.ok (), { st with repo := repoDelete st.repo client })

/-- A client group (Go `cgroups.ClientGroup`): a named collection of client
ids. Modelled from the spec: the group's matching rule ("exact semantics of
group matching are external", spec 4.3) is rendered as an explicit list of
matching client ids. -/
structure ClientGroup where
  GroupID : String
  matchIDs : List String
  ClientIDs : List String
deriving DecidableEq, Repr

/-- Modelled from the spec: `BelongsTo(group)` — "membership predicate
evaluated against the client's attributes against a group's matching rule"
(spec 4.3), here: the group's rule lists the client's id. -/
def Client.BelongsTo (c : Client) (g : ClientGroup) : Bool :=
  g.matchIDs.contains c.ID

/-- An API user as this core sees it (Go `clients.User`): admin flag and
group memberships. -/
structure User where
  groups : List String
  admin : Bool
deriving DecidableEq, Repr

def User.IsAdmin (u : User) : Bool := u.admin

def User.GetGroups (u : User) : List String := u.groups

/-- Modelled from the spec: `HasAccess(userGroups)` — "true if the client's
`AllowedUserGroups` intersects the user's groups, or the client has no
group restriction" (spec 4.3). -/
def Client.HasAccess (c : Client) (userGroups : List String) : Bool :=
  c.AllowedUserGroups.isEmpty ||
    c.AllowedUserGroups.any (fun g => userGroups.contains g)

/-- Modelled from the spec: repository `GetUserClients(user, filters)` —
lookup applying "access-control narrowing to only clients the given user
may see" (spec 4.2); the injected `userClientsErr` stands for a repository
I/O failure of this collaborator (spec section 7). The service calls it
with a nil filter list, so filters are not modelled. -/
def GetUserClients (st : ServiceState) (user : User) :
    Except String (List Client) :=
  match st.userClientsErr with
  | some e => .error e
  | none => .ok (st.repo.filter (fun c => user.IsAdmin || c.HasAccess user.GetGroups))

/-- Lexicographic character-list comparison, mirroring Go's byte-wise
string order. -/
def charListLe : List Char → List Char → Bool
  | [], _ => true
  | _ :: _, [] => false
  | a :: as, b :: bs =>
    if a.toNat < b.toNat then true
    else if b.toNat < a.toNat then false
    else charListLe as bs

/-- Go's `<=` on strings: lexicographic comparison. -/
def strLe (a b : String) : Bool :=
  charListLe a.data b.data

/-- Insertion of a string into an ascending list, for `sort.Strings`. -/
def insertSorted (s : String) : List String → List String
  | [] => [s]
  | x :: xs => if strLe s x then s :: x :: xs else x :: insertSorted s xs

/-- Go `sort.Strings`: sort a string slice ascending. -/
def sortStrings (l : List String) : List String :=
  l.foldr insertSorted []

/-- The inner loop of `PopulateGroupsWithUserClients` (routes.go): append
the client's id to every group the client belongs to. -/
def appendToGroups (groups : List ClientGroup) (c : Client) : List ClientGroup :=
  groups.map (fun g =>
    if c.BelongsTo g then { g with ClientIDs := g.ClientIDs ++ [c.ID] } else g)

/-- `ClientService.PopulateGroupsWithUserClients` (routes.go): fetch the
user's clients — discarding any lookup error (`all, _ := ...`) — append
each client's id to every group it belongs to, then sort every group's
member-id list. -/
def PopulateGroupsWithUserClients (st : ServiceState)
    (groups : List ClientGroup) (user : User) : List ClientGroup :=
  let all : List Client :=
    match GetUserClients st user with
    | .error _ => []
    | .ok l => l
  let populated := all.foldl appendToGroups groups
  populated.map (fun g => { g with ClientIDs := sortStrings g.ClientIDs })

/-- Tunnel `t` serves remote request `r`: it forwards to the same target
host and port on the agent side. -/
def tunnelServes (t : Tunnel) (r : Remote) : Bool :=
  t.remote.RemoteHost = r.RemoteHost && t.remote.RemotePort = r.RemotePort

/-- The tunnel-allocation errors of `startClientTunnels` (spec 4.6 /
claim C2's list): random-port exhaustion, invalid / disallowed / busy
explicit port, ACL parse failure, `StartTunnel` failure. -/
def isTunnelAllocErr : SvcErr → Bool
  | .noFreePorts => true
  | .invalidLocalPort _ => true
  | .portNotAllowed _ => true
  | .portBusy _ => true
  | .aclParseFailed _ => true
  | .tunnelCreateConflict _ => true
  | _ => false

/-! Concrete fixtures used by the witness and counterexample theorems. -/

/-- A client record with the given identity, connection state and tunnels;
descriptor fields are immaterial defaults. -/
def mkTestClient (id authID : String) (disc : Option Nat)
    (tunnels : List Tunnel) (conn : Option ConnHandle) : Client :=
  { ID := id, Name := "n", OS := "linux", OSArch := "amd64", OSFamily := ""
    OSKernel := "", OSFullName := "", OSVersion := ""
    OSVirtualizationSystem := "", OSVirtualizationRole := "", Hostname := "h"
    CPUFamily := "", CPUModel := "", CPUModelName := "", CPUVendor := ""
    NumCPUs := 1, MemoryTotal := 0, Timezone := "", IPv4 := [], IPv6 := []
    Tags := [], Version := "1", Address := "10.0.0.9", Tunnels := tunnels
    DisconnectedAt := disc, ClientAuthID := authID, AllowedUserGroups := []
    UpdatesStatus := none, Connection := conn }

def pdFix : PortDistributor := { allowed := [3000, 3001, 3002], busy := [3001] }

def connFix : ConnHandle := { remoteAddr := "10.0.0.9:5050", closeResult := none }

def connBadClose : ConnHandle :=
  { remoteAddr := "10.0.0.9:5050", closeResult := some "close failed" }

def reqFix : ConnectionRequest :=
  { Name := "agent", OS := "linux", OSArch := "amd64", OSFamily := ""
    OSKernel := "", OSFullName := "", OSVersion := ""
    OSVirtualizationSystem := "", OSVirtualizationRole := "", Hostname := "h"
    CPUFamily := "", CPUModel := "", CPUModelName := "", CPUVendor := ""
    NumCPUs := 1, MemoryTotal := 0, Timezone := "", IPv4 := [], IPv6 := []
    Tags := [], Version := "1", Remotes := [] }

def remoteA : Remote :=
  { RemoteHost := "192.168.1.5", RemotePort := "22", LocalHost := "0.0.0.0"
    LocalPort := "3000", LocalPortRandom := false, ACL := none }

def remoteB : Remote :=
  { RemoteHost := "192.168.1.6", RemotePort := "80", LocalHost := "0.0.0.0"
    LocalPort := "3002", LocalPortRandom := false, ACL := none }

def remoteBadPort : Remote :=
  { RemoteHost := "192.168.1.7", RemotePort := "80", LocalHost := "0.0.0.0"
    LocalPort := "9999", LocalPortRandom := false, ACL := none }

/-- A disconnected holder of auth id `"k"` under client id `"a"`. -/
def c1old : Client := mkTestClient "a" "k" (some 5) [] none

def c1state : ServiceState :=
  { repo := [c1old], KeepLostClients := some 1, portDistributor := pdFix
    userClientsErr := none }

/-- A disconnected client `"a"` that held a tunnel for `remoteA`. -/
def c4old : Client :=
  mkTestClient "a" "k" (some 5) [{ remote := remoteA, acl := none }] none

def c4state : ServiceState :=
  { repo := [c4old], KeepLostClients := some 1, portDistributor := pdFix
    userClientsErr := none }

/-- The client produced by the reconnect of `"a"` in `c4state` requesting
only `remoteB` (the error fallback is never reached). -/
def c4res : Client :=
  match (StartClient c4state "k" "a" connFix false
      { reqFix with Remotes := [remoteB] }).1 with
  | .ok cl => cl
  | .error _ => mkTestClient "" "" none [] none

/-- A still-connected client `"a"`. -/
def connectedCl : Client := mkTestClient "a" "k" none [] (some connFix)

def connectedSt : ServiceState :=
  { repo := [connectedCl], KeepLostClients := some 1, portDistributor := pdFix
    userClientsErr := none }

/-- A still-connected client `"a"` whose transport close fails. -/
def badCloseCl : Client := mkTestClient "a" "k" none [] (some connBadClose)

def badCloseSt : ServiceState :=
  { repo := [badCloseCl], KeepLostClients := some 1, portDistributor := pdFix
    userClientsErr := none }

def emptySt : ServiceState :=
  { repo := [], KeepLostClients := some 1, portDistributor := pdFix
    userClientsErr := none }

def noRetentionSt : ServiceState :=
  { repo := [connectedCl], KeepLostClients := none, portDistributor := pdFix
    userClientsErr := none }

def groupFix : ClientGroup :=
  { GroupID := "G", matchIDs := ["a"], ClientIDs := ["z", "b"] }

def userFix : User := { groups := ["ops"], admin := false }

def brokenRepoSt : ServiceState :=
  { repo := [connectedCl], KeepLostClients := some 1, portDistributor := pdFix
    userClientsErr := some "db failure" }

/-! Helper lemmas about the repository and the tunnel-allocation loop. -/

theorem repoGetByID_delete_self (repo : List Client) (client : Client) :
    repoGetByID (repoDelete repo client) client.ID = none := by
  unfold repoGetByID repoDelete
  rw [List.find?_eq_none]
  intro x hx
  have hmem := List.mem_filter.mp hx
  simpa using hmem.2

theorem find?_map_replace (l : List Client) (c : Client)
    (h : l.any (fun x => decide (x.ID = c.ID)) = true) :
    (l.map (fun x => if x.ID = c.ID then c else x)).find?
      (fun x => decide (x.ID = c.ID)) = some c := by
  induction l with
  | nil => simp at h
  | cons head tail ih =>
    by_cases hhead : head.ID = c.ID
    · simp [hhead, List.find?]
    · rw [List.map_cons, if_neg hhead, List.find?_cons_of_neg]
      · apply ih
        simp [List.any_cons, hhead] at h
        simpa using h
      · simpa using hhead

theorem repoGetByID_save_self (repo : List Client) (client : Client) :
    repoGetByID (repoSave repo client) client.ID = some client := by
  unfold repoGetByID repoSave
  by_cases h : repo.any (fun c => decide (c.ID = client.ID)) = true
  · rw [if_pos]
    · exact find?_map_replace repo client h
    · simpa using h
  · rw [if_neg]
    · rw [List.find?_append]
      have h1 : repo.find? (fun c => decide (c.ID = client.ID)) = none := by
        rw [List.find?_eq_none]
        intro x hx
        simp only [List.any_eq_true] at h
        push_neg at h
        simpa using h x hx
      simp [h1, List.find?]
    · simpa using h

theorem startTunnel_ok (c : Client) (r : Remote) (acl : Option TunnelACL)
    (t : Tunnel) (c' : Client) (h : c.StartTunnel r acl = .ok (t, c')) :
    t = { remote := r, acl := acl } ∧
      c' = { c with Tunnels := c.Tunnels ++ [t] } := by
  unfold Client.StartTunnel at h
  split at h
  · simp at h
  · simp only [Except.ok.injEq, Prod.mk.injEq] at h
    refine ⟨h.1.symm, ?_⟩
    rw [← h.2, ← h.1]

theorem tunnelLoop_ok_client (remotes : List Remote) (pd : PortDistributor)
    (client : Client) (ts : List Tunnel) (client' : Client)
    (pd' : PortDistributor)
    (h : tunnelLoop pd client remotes = (.ok (ts, client'), pd')) :
    client' = { client with Tunnels := client.Tunnels ++ ts } := by
  induction remotes generalizing pd client ts client' pd' with
  | nil =>
    simp only [tunnelLoop, Prod.mk.injEq, Except.ok.injEq] at h
    obtain ⟨⟨h1, h2⟩, _⟩ := h
    simp [← h1, ← h2]
  | cons remote rest ih =>
    simp only [tunnelLoop] at h
    split at h
    · simp at h
    · split at h
      · simp at h
      · split at h
        · simp at h
        · rename_i res acl hacl res2 t0 client1 heqStart
          split at h
          · simp at h
          · rename_i res3 ts0 client2 pd2 heq2
            simp only [Prod.mk.injEq, Except.ok.injEq] at h
            obtain ⟨⟨hts, hcl⟩, hpd⟩ := h
            have h1 := startTunnel_ok _ _ _ _ _ heqStart
            have h2 := ih _ _ _ _ _ heq2
            rw [← hcl, h2, h1.2, ← hts]
            simp

theorem checkLocalPort_error_shape (pd : PortDistributor) (p : String)
    (e : SvcErr) (h : checkLocalPort pd p = some e) :
    isTunnelAllocErr e = true := by
  unfold checkLocalPort at h
  split at h
  · simp only [Option.some.injEq] at h
    rw [← h]; rfl
  · split at h
    · simp only [Option.some.injEq] at h
      rw [← h]; rfl
    · split at h
      · simp only [Option.some.injEq] at h
        rw [← h]; rfl
      · simp at h

theorem tunnelLoop_error_shape (remotes : List Remote) (pd : PortDistributor)
    (client : Client) (e : SvcErr) (pd' : PortDistributor)
    (h : tunnelLoop pd client remotes = (.error e, pd')) :
    isTunnelAllocErr e = true := by
  induction remotes generalizing pd client e pd' with
  | nil => simp [tunnelLoop] at h
  | cons remote rest ih =>
    simp only [tunnelLoop] at h
    split at h
    · rename_i e0 heqRes
      simp only [Prod.mk.injEq, Except.error.injEq] at h
      rw [← h.1]
      split at heqRes
      · split at heqRes
        · simp only [Except.error.injEq] at heqRes
          rw [← heqRes]; rfl
        · simp at heqRes
      · split at heqRes
        · rename_i e1 hchk
          simp only [Except.error.injEq] at heqRes
          rw [← heqRes]
          exact checkLocalPort_error_shape _ _ _ hchk
        · simp at heqRes
    · split at h
      · rename_i acl0 heqAcl
        simp only [Prod.mk.injEq, Except.error.injEq] at h
        rw [← h.1]
        split at heqAcl
        · simp at heqAcl
        · split at heqAcl
          · simp only [Except.error.injEq] at heqAcl
            rw [← heqAcl]; rfl
          · simp at heqAcl
      · split at h
        · simp only [Prod.mk.injEq, Except.error.injEq] at h
          rw [← h.1]; rfl
        · rename_i t0 client1 heqStart
          split at h
          · rename_i e2 pd2 heq2
            simp only [Prod.mk.injEq, Except.error.injEq] at h
            rw [← h.1]
            exact ih _ _ _ _ heq2
          · simp at h

theorem tunnelLoop_ok_serves (remotes : List Remote) (pd : PortDistributor)
    (client : Client) (ts : List Tunnel) (client' : Client)
    (pd' : PortDistributor)
    (h : tunnelLoop pd client remotes = (.ok (ts, client'), pd')) :
    ∀ r ∈ remotes, ∃ t ∈ ts, tunnelServes t r = true := by
  induction remotes generalizing pd client ts client' pd' with
  | nil => simp
  | cons remote rest ih =>
    simp only [tunnelLoop] at h
    split at h
    · simp at h
    · rename_i remote1 pd1 heqRes
      split at h
      · simp at h
      · split at h
        · simp at h
        · rename_i acl hacl t0 client1 heqStart
          split at h
          · simp at h
          · rename_i ts0 client2 pd2 heq2
            simp only [Prod.mk.injEq, Except.ok.injEq] at h
            obtain ⟨⟨hts, hcl⟩, hpd⟩ := h
            have hserve1 : tunnelServes t0 remote = true := by
              have h1 := startTunnel_ok _ _ _ _ _ heqStart
              have hrem : remote1.RemoteHost = remote.RemoteHost ∧
                  remote1.RemotePort = remote.RemotePort := by
                split at heqRes
                · split at heqRes
                  · simp at heqRes
                  · simp only [Except.ok.injEq, Prod.mk.injEq] at heqRes
                    rw [← heqRes.1]
                    exact ⟨rfl, rfl⟩
                · split at heqRes
                  · simp at heqRes
                  · simp only [Except.ok.injEq, Prod.mk.injEq] at heqRes
                    rw [← heqRes.1]
                    exact ⟨rfl, rfl⟩
              rw [h1.1]
              simp [tunnelServes, hrem.1, hrem.2]
            intro r hr
            rcases List.mem_cons.mp hr with hr1 | hr2
            · refine ⟨t0, ?_, ?_⟩
              · rw [← hts]; exact List.mem_cons_self _ _
              · rw [hr1]; exact hserve1
            · obtain ⟨t, htmem, htserves⟩ := ih _ _ _ _ _ heq2 r hr2
              refine ⟨t, ?_, htserves⟩
              rw [← hts]
              exact List.mem_cons_of_mem _ htmem

/-! The claim theorems, with their witnesses and counterexamples. -/

theorem startClientRest_ok (st : ServiceState) (a c : String)
    (conn : ConnHandle) (mu : Bool) (req : ConnectionRequest)
    (oldC : Option Client) (cl : Client) (st' : ServiceState)
    (h : startClientRest st a c conn mu req oldC = (.ok cl, st')) :
    ∃ host ts pd1,
      splitHost conn.remoteAddr = some host ∧
      tunnelLoop (st.portDistributor.refreshFrom st.repo)
        (mkClient a c host conn req oldC) req.Remotes = (.ok (ts, cl), pd1) ∧
      st' = { st with repo := repoSave st.repo cl, portDistributor := pd1 } := by
  unfold startClientRest at h
  split at h
  · simp at h
  · split at h
    · simp at h
    · rename_i host hsplit
      split at h
      · simp at h
      · rename_i ts client1 pd1 heq
        simp only [Prod.mk.injEq, Except.ok.injEq] at h
        obtain ⟨hcl, hst⟩ := h
        subst hcl
        refine ⟨host, ts, pd1, hsplit, ?_, hst.symm⟩
        unfold startClientTunnels at heq
        exact heq

theorem startClientRest_auth_iff (st : ServiceState) (a c : String)
    (conn : ConnHandle) (req : ConnectionRequest) (oldC : Option Client) :
    ((startClientRest st a c conn false req oldC).1 =
        .error (.authIdInUse a)) ↔
      isClientAuthIDInUse st.repo a c = true := by
  unfold startClientRest
  by_cases hauth : isClientAuthIDInUse st.repo a c = true
  · simp [hauth]
  · simp only [Bool.not_eq_true] at hauth
    simp only [hauth, Bool.and_false, Bool.false_eq_true, if_false]
    rcases hsplit : splitHost conn.remoteAddr with _ | host
    · simp [hauth]
    · simp only [hsplit]
      rcases hst : startClientTunnels st (mkClient a c host conn req oldC)
          req.Remotes with ⟨res, pd1⟩
      rcases res with e | ⟨ts, client1⟩
      · have hshape : isTunnelAllocErr e = true := by
          have hst2 := hst
          unfold startClientTunnels at hst2
          exact tunnelLoop_error_shape _ _ _ _ _ hst2
        simp only [hst]
        constructor
        · intro hcontra
          simp only [Except.error.injEq] at hcontra
          rw [hcontra] at hshape
          simp [isTunnelAllocErr] at hshape
        · intro hcontra
          exact hcontra.elim
      · simp [hst, hauth]

theorem startClient_ok_saved (st : ServiceState) (a cid : String)
    (conn : ConnHandle) (mu : Bool) (req : ConnectionRequest) (cl : Client)
    (st' : ServiceState)
    (h : StartClient st a cid conn mu req = (.ok cl, st')) :
    cl.ID = cid ∧ cl.DisconnectedAt = none ∧
      repoGetByID st'.repo cid = some cl := by
  unfold StartClient at h
  have tail : ∀ (req' : ConnectionRequest) (oldC : Option Client),
      startClientRest st a cid conn mu req' oldC = (.ok cl, st') →
      cl.ID = cid ∧ cl.DisconnectedAt = none ∧
        repoGetByID st'.repo cid = some cl := by
    intro req' oldC h'
    obtain ⟨host, ts, pd1, hsplit, hloop, hst⟩ :=
      startClientRest_ok _ _ _ _ _ _ _ _ _ h'
    have hcl := tunnelLoop_ok_client _ _ _ _ _ _ hloop
    have hid : cl.ID = cid := by rw [hcl]; rfl
    refine ⟨hid, by rw [hcl]; rfl, ?_⟩
    rw [hst, ← hid]
    exact repoGetByID_save_self st.repo cl
  split at h
  · split at h
    · simp at h
    · exact tail _ _ h
  · exact tail _ _ h

/-- C3: while the repository holds a still-connected record under a client
id, any `StartClient` with that id fails with the id-conflict error and
leaves the whole service state unchanged; and after a successful
`StartClient`, any further `StartClient` under the same id fails that way
while the saved registration remains connected. -/
theorem c3_connected_id_conflict (st : ServiceState) (a cid : String)
    (conn : ConnHandle) (mu : Bool) (req : ConnectionRequest) :
    (∀ old : Client, repoGetByID st.repo cid = some old →
      old.DisconnectedAt = none →
      StartClient st a cid conn mu req = (.error (.clientIdInUse cid), st)) ∧
    (∀ (cl : Client) (st' : ServiceState),
      StartClient st a cid conn mu req = (.ok cl, st') →
      ∀ (a2 : String) (conn2 : ConnHandle) (mu2 : Bool)
        (req2 : ConnectionRequest),
        StartClient st' a2 cid conn2 mu2 req2 =
          (.error (.clientIdInUse cid), st')) := by
  constructor
  · intro old hold hdisc
    unfold StartClient
    simp only [hold]
    rw [if_pos hdisc]
  · intro cl st' h a2 conn2 mu2 req2
    obtain ⟨hid, hdisc, hsaved⟩ := startClient_ok_saved _ _ _ _ _ _ _ _ h
    unfold StartClient
    simp only [hsaved]
    rw [if_pos hdisc]

/-- C3 witness: in the empty registry, registering `"b"` succeeds and an
immediate second registration under `"b"` fails with the id conflict. -/
theorem c3_witness :
    StartClient
        (StartClient emptySt "k" "b" connFix false reqFix).2 "k2" "b"
        connFix true reqFix =
      (.error (.clientIdInUse "b"),
        (StartClient emptySt "k" "b" connFix false reqFix).2) :=
  (c3_connected_id_conflict emptySt "k" "b" connFix false reqFix).2
    ((StartClient emptySt "k" "b" connFix false reqFix).1.toOption.get (by rfl))
    (StartClient emptySt "k" "b" connFix false reqFix).2
    (by rfl) "k2" connFix true reqFix

/-- C1 counterexample: in `c1state` no *connected* client other than `"b"`
holds auth id `"k"` (its only holder, `"a"`, is disconnected), yet
`StartClient` for client id `"b"` with multi-use credentials disabled
fails with the auth-in-use conflict. -/
theorem c1_counterexample :
    (c1state.repo.filter (fun cl =>
        decide (cl.DisconnectedAt = none) && decide (cl.ClientAuthID = "k") &&
        decide (cl.ID ≠ "b"))).isEmpty = true ∧
    (StartClient c1state "k" "b" connFix false reqFix).1 =
      .error (.authIdInUse "k") := ⟨rfl, rfl⟩

/-- C1 as amended: with multi-use credentials disabled, and when the
client-id step does not already reject the call, `StartClient` fails with
the auth-conflict error if and only if the auth id is attached to some
client record — connected or disconnected — whose id differs from the
registering one (`isClientAuthIDInUse`). -/
theorem c1_amended_auth_conflict_iff (st : ServiceState) (a cid : String)
    (conn : ConnHandle) (req : ConnectionRequest)
    (hnoConn : ∀ old : Client, repoGetByID st.repo cid = some old →
      old.DisconnectedAt ≠ none) :
    ((StartClient st a cid conn false req).1 =
        .error (.authIdInUse a)) ↔
      isClientAuthIDInUse st.repo a cid = true := by
  unfold StartClient
  rcases hold : repoGetByID st.repo cid with _ | old
  · exact startClientRest_auth_iff st a cid conn req none
  · simp only []
    rw [if_neg (hnoConn old hold)]
    exact startClientRest_auth_iff st a cid conn _ (some old)

/-- C1 witness for the amended theorem, at the counterexample's input. -/
theorem c1_amended_witness :
    ((StartClient c1state "k" "b" connFix false reqFix).1 =
        .error (.authIdInUse "k")) ↔
      isClientAuthIDInUse c1state.repo "k" "b" = true :=
  c1_amended_auth_conflict_iff c1state "k" "b" connFix reqFix
    (fun old hold => Option.noConfusion
      (show (none : Option Client) = some old from hold))

theorem startClientRest_error_repo (st : ServiceState) (a c : String)
    (conn : ConnHandle) (mu : Bool) (req : ConnectionRequest)
    (oldC : Option Client) (e : SvcErr)
    (herr : (startClientRest st a c conn mu req oldC).1 = .error e)
    (hkind : isTunnelAllocErr e = true) :
    (startClientRest st a c conn mu req oldC).2.repo = st.repo := by
  unfold startClientRest at herr ⊢
  by_cases hauth : (!mu && isClientAuthIDInUse st.repo a c) = true
  · rw [if_pos hauth] at herr
    simp only [Except.error.injEq] at herr
    rw [← herr] at hkind
    simp [isTunnelAllocErr] at hkind
  · rw [if_neg hauth] at herr ⊢
    rcases hsplit : splitHost conn.remoteAddr with _ | host
    · simp only [hsplit, Except.error.injEq] at herr
      rw [← herr] at hkind
    · simp only [hsplit] at herr ⊢
      rcases hst : startClientTunnels st (mkClient a c host conn req oldC)
          req.Remotes with ⟨res, pd1⟩
      rcases res with e0 | ⟨ts, client1⟩
      · simp only [hst] at herr ⊢
      · simp [hst] at herr

/-- C2: a tunnel-allocation failure aborts the whole registration — the
error from `startClientTunnels` (random-port exhaustion, invalid /
disallowed / busy explicit port, ACL parse failure, `StartTunnel`
conflict) is returned as the result of the call, and the repository is
left exactly as it was: no client record is saved, and every `GetByID`
lookup afterwards answers as before the call. -/
theorem c2_alloc_failure_aborts (st : ServiceState) (a cid : String)
    (conn : ConnHandle) (mu : Bool) (req : ConnectionRequest) (e : SvcErr) :
    (∀ (oldC : Option Client) (host : String),
      (!mu && isClientAuthIDInUse st.repo a cid) = false →
      splitHost conn.remoteAddr = some host →
      (startClientTunnels st (mkClient a cid host conn req oldC)
        req.Remotes).1 = .error e →
      (startClientRest st a cid conn mu req oldC).1 = .error e) ∧
    ((StartClient st a cid conn mu req).1 = .error e →
      isTunnelAllocErr e = true →
      (StartClient st a cid conn mu req).2.repo = st.repo ∧
      ∀ id, repoGetByID (StartClient st a cid conn mu req).2.repo id =
        repoGetByID st.repo id) := by
  constructor
  · intro oldC host hauth hsplit htun
    unfold startClientRest
    rw [if_neg (by simp [hauth])]
    simp only [hsplit]
    rcases hst : startClientTunnels st (mkClient a cid host conn req oldC)
        req.Remotes with ⟨res, pd1⟩
    rw [hst] at htun
    rcases res with e0 | ok0
    · simp only [Except.error.injEq] at htun
      simp [hst, htun]
    · simp at htun
  · intro herr hkind
    have main : (StartClient st a cid conn mu req).2.repo = st.repo := by
      unfold StartClient at herr ⊢
      rcases hold : repoGetByID st.repo cid with _ | old
      · simp only [hold] at herr ⊢
        exact startClientRest_error_repo _ _ _ _ _ _ _ _ herr hkind
      · simp only [hold] at herr ⊢
        by_cases hd : old.DisconnectedAt = none
        · rw [if_pos hd]
        · rw [if_neg hd] at herr ⊢
          exact startClientRest_error_repo _ _ _ _ _ _ _ _ herr hkind
    exact ⟨main, fun id => by rw [main]⟩

/-- C2 witness: a request for the disallowed explicit port 9999 has its
error propagated out of the allocation step and leaves the empty
repository unchanged. -/
theorem c2_witness :
    (startClientRest emptySt "k" "b" connFix false
        { reqFix with Remotes := [remoteBadPort] } none).1 =
      .error (.portNotAllowed 9999) ∧
    (StartClient emptySt "k" "b" connFix false
        { reqFix with Remotes := [remoteBadPort] }).2.repo = emptySt.repo ∧
    ∀ id, repoGetByID (StartClient emptySt "k" "b" connFix false
        { reqFix with Remotes := [remoteBadPort] }).2.repo id =
      repoGetByID emptySt.repo id :=
  ⟨(c2_alloc_failure_aborts emptySt "k" "b" connFix false
      { reqFix with Remotes := [remoteBadPort] } (.portNotAllowed 9999)).1
      none "10.0.0.9" (by rfl) (by rfl) (by rfl),
    (c2_alloc_failure_aborts emptySt "k" "b" connFix false
      { reqFix with Remotes := [remoteBadPort] } (.portNotAllowed 9999)).2
      (by rfl) (by rfl)⟩

/-- C4: after a disconnected record's successful re-registration, the new
client's tunnel set serves every newly requested remote and every old
remote that the merge step selected for re-establishment (the old remotes
not duplicated by the new request). -/
theorem c4_reconnect_reestablish (st : ServiceState) (a cid : String)
    (conn : ConnHandle) (mu : Bool) (req : ConnectionRequest)
    (old cl : Client)
    (hold : repoGetByID st.repo cid = some old)
    (hdisc : old.DisconnectedAt ≠ none)
    (hok : (StartClient st a cid conn mu req).1 = .ok cl) :
    (∀ r ∈ req.Remotes, ∃ t ∈ cl.Tunnels, tunnelServes t r = true) ∧
    (∀ r ∈ GetTunnelsToReestablish (getRemotes old.Tunnels) req.Remotes,
      ∃ t ∈ cl.Tunnels, tunnelServes t r = true) := by
  have h : StartClient st a cid conn mu req =
      (.ok cl, (StartClient st a cid conn mu req).2) := by
    rw [← hok]
  unfold StartClient at h
  simp only [hold] at h
  rw [if_neg hdisc] at h
  obtain ⟨host, ts, pd1, hsplit, hloop, hst⟩ :=
    startClientRest_ok _ _ _ _ _ _ _ _ _ h
  have hcl := tunnelLoop_ok_client _ _ _ _ _ _ hloop
  have hserves := tunnelLoop_ok_serves _ _ _ _ _ _ hloop
  have htun : cl.Tunnels = ts := by
    rw [hcl]
    simp [mkClient]
  rw [htun]
  constructor
  · intro r hr
    exact hserves r (by simp only [List.mem_append]; exact Or.inl hr)
  · intro r hr
    exact hserves r (by simp only [List.mem_append]; exact Or.inr hr)

/-- C4 witness: the disconnected client `"a"` held a `remoteA` tunnel;
reconnecting with the disjoint request `remoteB` yields a client serving
both `remoteB` and the re-established `remoteA`. -/
theorem c4_witness :
    (∀ r ∈ [remoteB], ∃ t ∈ c4res.Tunnels, tunnelServes t r = true) ∧
    (∀ r ∈ GetTunnelsToReestablish (getRemotes c4old.Tunnels) [remoteB],
      ∃ t ∈ c4res.Tunnels, tunnelServes t r = true) :=
  c4_reconnect_reestablish c4state "k" "a" connFix false
    { reqFix with Remotes := [remoteB] } c4old c4res
    (by rfl) (by decide) (by rfl)

/-- C5: `Terminate` obeys the retention policy — with `KeepLostClients`
nil it deletes the record so `GetByID` afterwards returns nothing; with a
retention duration set (and the record present) it persists the record
soft-deleted, so `GetByID` still returns it with a non-nil
`disconnected_at`. -/
theorem c5_terminate_retention (st : ServiceState) (client : Client)
    (now : Nat) :
    (st.KeepLostClients = none →
      (Terminate st client now).1 = .ok () ∧
      repoGetByID (Terminate st client now).2.2.repo client.ID = none) ∧
    (∀ d : Nat, st.KeepLostClients = some d →
      ∀ old : Client, repoGetByID st.repo client.ID = some old →
        (Terminate st client now).1 = .ok () ∧
        repoGetByID (Terminate st client now).2.2.repo client.ID =
          some { client with DisconnectedAt := some now } ∧
        ({ client with DisconnectedAt := some now } : Client).DisconnectedAt ≠
          none) := by
  constructor
  · intro hnone
    refine ⟨by simp [Terminate, hnone], ?_⟩
    simp only [Terminate, hnone, if_pos]
    exact repoGetByID_delete_self st.repo client
  · intro d hsome old holdrec
    have hne : ¬ st.KeepLostClients = none := by rw [hsome]; simp
    have hid : ({ client with DisconnectedAt := some now } : Client).ID =
        client.ID := rfl
    refine ⟨?_, ?_, by simp⟩
    · simp [Terminate, hne, hid, holdrec]
    · simp only [Terminate, if_neg hne, hid, holdrec]
      rw [show repoGetByID (repoSave st.repo
          { client with DisconnectedAt := some now }) client.ID =
        some { client with DisconnectedAt := some now } from
        repoGetByID_save_self st.repo _]

/-- C5 witness: terminating `"a"` deletes it under nil retention and
soft-deletes it under a set retention. -/
theorem c5_witness :
    ((Terminate noRetentionSt connectedCl 9).1 = .ok () ∧
      repoGetByID (Terminate noRetentionSt connectedCl 9).2.2.repo
        connectedCl.ID = none) ∧
    ((Terminate connectedSt connectedCl 9).1 = .ok () ∧
      repoGetByID (Terminate connectedSt connectedCl 9).2.2.repo
        connectedCl.ID =
        some { connectedCl with DisconnectedAt := some 9 } ∧
      ({ connectedCl with DisconnectedAt := some 9 } : Client).DisconnectedAt ≠
        none) :=
  ⟨(c5_terminate_retention noRetentionSt connectedCl 9).1 rfl,
    (c5_terminate_retention connectedSt connectedCl 9).2 1 rfl
      connectedCl (by rfl)⟩

/-- C6: with a retention duration set, `Terminate` on a client whose
record is absent (force-deleted) returns success, changes nothing in the
service state, and `GetByID` still returns no client. -/
theorem c6_terminate_after_force_delete (st : ServiceState) (client : Client)
    (now d : Nat) (hk : st.KeepLostClients = some d)
    (habs : repoGetByID st.repo client.ID = none) :
    (Terminate st client now).1 = .ok () ∧
    (Terminate st client now).2.2 = st ∧
    repoGetByID (Terminate st client now).2.2.repo client.ID = none := by
  have hne : ¬ st.KeepLostClients = none := by rw [hk]; simp
  have hid : ({ client with DisconnectedAt := some now } : Client).ID =
      client.ID := rfl
  refine ⟨?_, ?_, ?_⟩ <;> simp [Terminate, hne, hid, habs]

/-- C6 witness: terminating the absent client `"a"` over the empty
repository (retention one tick) is a no-op success. -/
theorem c6_witness :
    (Terminate emptySt connectedCl 9).1 = .ok () ∧
    (Terminate emptySt connectedCl 9).2.2 = emptySt ∧
    repoGetByID (Terminate emptySt connectedCl 9).2.2.repo connectedCl.ID =
      none :=
  c6_terminate_after_force_delete emptySt connectedCl 9 1 rfl (by rfl)

/-- C10: with a retention duration set and the record absent from the
repository, `Terminate` still stamps the caller-supplied Client value with
`DisconnectedAt = now` — every other field of the value and the whole
service state are unchanged. -/
theorem c10_terminate_mutates_caller (st : ServiceState) (client : Client)
    (now d : Nat) (hk : st.KeepLostClients = some d)
    (habs : repoGetByID st.repo client.ID = none) :
    (Terminate st client now).2.1 =
      { client with DisconnectedAt := some now } ∧
    (Terminate st client now).2.1.DisconnectedAt = some now ∧
    (Terminate st client now).2.2 = st := by
  have hne : ¬ st.KeepLostClients = none := by rw [hk]; simp
  have hid : ({ client with DisconnectedAt := some now } : Client).ID =
      client.ID := rfl
  refine ⟨?_, ?_, ?_⟩ <;> simp [Terminate, hne, hid, habs]

/-- C10 witness: the caller's `"a"` value comes back stamped with
`DisconnectedAt = 9` while the absent-record state is untouched. -/
theorem c10_witness :
    (Terminate emptySt badCloseCl 9).2.1 =
      { badCloseCl with DisconnectedAt := some 9 } ∧
    (Terminate emptySt badCloseCl 9).2.1.DisconnectedAt = some 9 ∧
    (Terminate emptySt badCloseCl 9).2.2 = emptySt :=
  c10_terminate_mutates_caller emptySt badCloseCl 9 1 rfl (by rfl)

/-- C7 counterexample: the connected client `"a"` whose transport close
fails: `ForceDelete` returns the close error and the record is still in
the repository — the claim's "always deletes the record" fails here. -/
theorem c7_counterexample :
    badCloseCl.DisconnectedAt = none ∧
    (ForceDelete badCloseSt badCloseCl).1 = .error (.closeFailed "close failed") ∧
    repoGetByID (ForceDelete badCloseSt badCloseCl).2.repo "a" =
      some badCloseCl := ⟨rfl, rfl, rfl⟩

/-- C7 as amended: `ForceDelete` closes the live connection first when the
client is connected — a close failure is returned and nothing is deleted —
and in every other case (already disconnected, or the close succeeds) it
deletes the record regardless of the retention setting. -/
theorem c7_amended_force_delete (st : ServiceState) (client : Client) :
    (∀ msg, client.DisconnectedAt = none → client.closeConn = some msg →
      ForceDelete st client = (.error (.closeFailed msg), st)) ∧
    (client.DisconnectedAt ≠ none ∨ client.closeConn = none →
      (ForceDelete st client).1 = .ok () ∧
      repoGetByID (ForceDelete st client).2.repo client.ID = none) := by
  constructor
  · intro msg hconn hclose
    simp [ForceDelete, hconn, hclose]
  · intro h
    by_cases hd : client.DisconnectedAt = none
    · rcases h with h | h
      · exact absurd hd h
      · refine ⟨by simp [ForceDelete, hd, h], ?_⟩
        simp only [ForceDelete, if_pos hd, h]
        exact repoGetByID_delete_self st.repo client
    · refine ⟨by simp [ForceDelete, hd], ?_⟩
      simp only [ForceDelete, if_neg hd]
      exact repoGetByID_delete_self st.repo client

/-- C7 witness: force-deleting the connected `"a"` (whose close succeeds)
removes its record. -/
theorem c7_witness :
    (ForceDelete connectedSt connectedCl).1 = .ok () ∧
    repoGetByID (ForceDelete connectedSt connectedCl).2.repo
      connectedCl.ID = none :=
  (c7_amended_force_delete connectedSt connectedCl).2 (Or.inr rfl)

/-- C8: for an explicitly specified local port, `checkLocalPort` yields a
distinct structured error per violation — unparseable port: bad request
(400); parseable but disallowed: bad request (400); allowed but busy:
conflict (409) — and passes silently when all three checks hold. -/
theorem c8_local_port_validation (pd : PortDistributor) (port : String) :
    (atoi port = none →
      checkLocalPort pd port = some (.invalidLocalPort port) ∧
      SvcErr.httpStatus (.invalidLocalPort port) = some 400) ∧
    (∀ p : Int, atoi port = some p → pd.IsPortAllowed p = false →
      checkLocalPort pd port = some (.portNotAllowed p) ∧
      SvcErr.httpStatus (.portNotAllowed p) = some 400) ∧
    (∀ p : Int, atoi port = some p → pd.IsPortAllowed p = true →
      pd.IsPortBusy p = true →
      checkLocalPort pd port = some (.portBusy p) ∧
      SvcErr.httpStatus (.portBusy p) = some 409) ∧
    (∀ p : Int, atoi port = some p → pd.IsPortAllowed p = true →
      pd.IsPortBusy p = false →
      checkLocalPort pd port = none) := by
  refine ⟨?_, ?_, ?_, ?_⟩
  · intro h
    exact ⟨by simp [checkLocalPort, h], rfl⟩
  · intro p hp hallow
    exact ⟨by simp [checkLocalPort, hp, hallow], rfl⟩
  · intro p hp hallow hbusy
    exact ⟨by simp [checkLocalPort, hp, hallow, hbusy], rfl⟩
  · intro p hp hallow hbusy
    simp [checkLocalPort, hp, hallow, hbusy]

/-- C8 witness: against `pdFix` (allowed 3000-3002, busy 3001): "abc" is a
400 invalid port, "9999" a 400 disallowed port, "3001" a 409 busy port and
"3000" passes. -/
theorem c8_witness :
    (checkLocalPort pdFix "abc" = some (.invalidLocalPort "abc") ∧
      SvcErr.httpStatus (.invalidLocalPort "abc") = some 400) ∧
    (checkLocalPort pdFix "9999" = some (.portNotAllowed 9999) ∧
      SvcErr.httpStatus (.portNotAllowed 9999) = some 400) ∧
    (checkLocalPort pdFix "3001" = some (.portBusy 3001) ∧
      SvcErr.httpStatus (.portBusy 3001) = some 409) ∧
    checkLocalPort pdFix "3000" = none :=
  ⟨(c8_local_port_validation pdFix "abc").1 (by rfl),
    (c8_local_port_validation pdFix "9999").2.1 9999 (by rfl) (by rfl),
    (c8_local_port_validation pdFix "3001").2.2.1 3001 (by rfl) (by rfl)
      (by rfl),
    (c8_local_port_validation pdFix "3000").2.2.2 3000 (by rfl) (by rfl)
      (by rfl)⟩

/-- C9 counterexample: with the repository's user-client lookup failing,
`PopulateGroupsWithUserClients` completes normally — the error is
discarded (`all, _ := ...`), the member list is only sorted — instead of
being surfaced to the caller. -/
theorem c9_counterexample :
    GetUserClients brokenRepoSt userFix = .error "db failure" ∧
    PopulateGroupsWithUserClients brokenRepoSt [groupFix] userFix =
      [{ GroupID := "G", matchIDs := ["a"], ClientIDs := ["b", "z"] }] :=
  ⟨rfl, rfl⟩

/-- C9 as amended: a repository error from `GetUserClients` during
`PopulateGroupsWithUserClients` is silently discarded — the operation (whose
signature carries no error result) proceeds as if no clients were
returned, leaving each group's member list unchanged apart from sorting. -/
theorem c9_amended_populate_discards_error (st : ServiceState)
    (groups : List ClientGroup) (user : User) (e : String)
    (herr : GetUserClients st user = .error e) :
    PopulateGroupsWithUserClients st groups user =
      groups.map (fun g => { g with ClientIDs := sortStrings g.ClientIDs }) := by
  simp [PopulateGroupsWithUserClients, herr]

/-- C9 witness for the amended theorem, at the counterexample's input. -/
theorem c9_amended_witness :
    PopulateGroupsWithUserClients brokenRepoSt [groupFix] userFix =
      [groupFix].map (fun g => { g with ClientIDs := sortStrings g.ClientIDs }) :=
  c9_amended_populate_discards_error brokenRepoSt [groupFix] userFix
    "db failure" (by rfl)

end RportVerify
